import Mathlib

/-!
Verification of the Tool Stock Control application
(`src/tool_stock_app_main.py`) against its natural-language specification.

The source is a Streamlit UI over a Supabase store.  Pure pieces of the
source (the daily-scan filter, the save-button guards, the telegram
wrapper, the PO action branches) are embedded as Lean functions below,
each with a comment citing the source lines it translates.  Logic that
the source delegates to the database (the balance view
`v_tool_balance_with_po`, the stored procedure `receive_po_item`, column
defaults of `po_items`) is modelled from the spec and marked as such in
its doc comment.

Quantities are modelled as rationals: the UI reads them from numeric
inputs with step 1.0 but arbitrary decimal entry, and the ledger sums
them exactly.
-/

namespace ToolStock

/-- Movement direction of a ledger transaction (source: `direction` field,
`"IN"` or `"OUT"` in the payloads at lines 206 and 243). -/
inductive Direction where
  | IN
  | OUT
  deriving DecidableEq, Repr

/-- A ledger transaction, as inserted into `tool_stock_txn` by `record_txn`
(source lines 56-58; payload shape from lines 205-212 and 242-249).
Optional context fields are carried as `Option String`; `txn_time` is the
ISO timestamp string the source formats from `tz_now()`. -/
structure Txn where
  tool_code : String
  direction : Direction
  qty : ℚ
  dept : Option String
  machine_code : Option String
  part_no : Option String
  shift : Option String
  reason : Option String
  remark : Option String
  ref_doc : Option String
  op_name : Option String
  txn_time : String
  deriving DecidableEq, Repr

/-- Modelled from the spec: the signed contribution of one transaction to
the on-hand balance.  The balance itself is computed by the database view
`v_tool_balance_with_po`, which is not part of src/; spec section 4.1 says
on-hand is the "signed sum of quantities (IN positive, OUT negative)". -/
def signedQty (t : Txn) : ℚ :=
  match t.direction with
  | .IN => t.qty
  | .OUT => -t.qty

/-- Modelled from the spec: the on-hand balance of one tool over a ledger,
"on-hand = sum(IN.quantity) − sum(OUT.quantity) over all transactions for
that tool" (spec section 3), realised as the signed sum of that tool's
transactions.  The database view `v_tool_balance_with_po` that computes
this is not part of src/. -/
def onHand (code : String) (ledger : List Txn) : ℚ :=
  ((ledger.filter (fun t => t.tool_code == code)).map signedQty).sum

/-- Sum of IN quantities for one tool over a ledger. -/
def sumIN (code : String) (ledger : List Txn) : ℚ :=
  ((ledger.filter (fun t => t.tool_code == code && t.direction == Direction.IN)).map
    (fun t => t.qty)).sum

/-- Sum of OUT quantities for one tool over a ledger. -/
def sumOUT (code : String) (ledger : List Txn) : ℚ :=
  ((ledger.filter (fun t => t.tool_code == code && t.direction == Direction.OUT)).map
    (fun t => t.qty)).sum

theorem onHand_eq_sumIN_sub_sumOUT (code : String) (ledger : List Txn) :
    onHand code ledger = sumIN code ledger - sumOUT code ledger := by
  induction ledger with
  | nil => simp [onHand, sumIN, sumOUT]
  | cons t l ih =>
    by_cases hc : t.tool_code == code
    · cases hd : t.direction
      · simp [onHand, sumIN, sumOUT, signedQty, List.filter_cons, hc, hd] at ih ⊢
        rw [ih]; ring
      · simp [onHand, sumIN, sumOUT, signedQty, List.filter_cons, hc, hd] at ih ⊢
        rw [ih]; ring
    · simp [onHand, sumIN, sumOUT, List.filter_cons, hc] at ih ⊢
      exact ih

theorem onHand_perm (code : String) {l l' : List Txn} (h : l.Perm l') :
    onHand code l = onHand code l' := by
  unfold onHand
  exact ((h.filter _).map signedQty).sum_eq

/-- C1: for every tool and every ledger, the on-hand balance equals
sum(IN quantities) minus sum(OUT quantities) over that tool's
transactions, and it is invariant under permutation of the ledger
(insertion order does not matter). -/
theorem C1_onHand_signed_sum_order_independent (code : String) (l l' : List Txn)
    (h : l.Perm l') :
    onHand code l = sumIN code l - sumOUT code l ∧ onHand code l = onHand code l' :=
  ⟨onHand_eq_sumIN_sub_sumOUT code l, onHand_perm code h⟩

/-- Concrete ledger entry used by witnesses below. -/
def txnEx (c : String) (d : Direction) (q : ℚ) : Txn :=
  { tool_code := c, direction := d, qty := q,
    dept := none, machine_code := none, part_no := none, shift := none,
    reason := none, remark := none, ref_doc := none, op_name := none,
    txn_time := "2025-01-01T08:00:00+07:00" }

theorem C1_onHand_witness :
    onHand "T1" [txnEx "T1" .IN 10, txnEx "T1" .OUT 8]
        = sumIN "T1" [txnEx "T1" .IN 10, txnEx "T1" .OUT 8]
          - sumOUT "T1" [txnEx "T1" .IN 10, txnEx "T1" .OUT 8]
      ∧ onHand "T1" [txnEx "T1" .IN 10, txnEx "T1" .OUT 8]
        = onHand "T1" [txnEx "T1" .OUT 8, txnEx "T1" .IN 10] :=
  C1_onHand_signed_sum_order_independent "T1" _ _ (List.Perm.swap _ _ _)

/-- Python `int(...)` applied to a quantity: truncation toward zero
(used when the source formats quantities into messages). -/
def pyInt (q : ℚ) : ℤ :=
  Int.tdiv q.num q.den

/-- A row of the balance view `v_tool_balance_with_po` as consumed by the
daily alert (source lines 65-84) and the dashboard (lines 131-146).  The
view itself is database-side; the columns are the ones the source reads:
`tool_code`, `tool_name`, `process` (read with default `-`), `on_hand`,
`min_stock`, `on_po`, `is_below_min`. -/
structure BalRow where
  tool_code : String
  tool_name : String
  process : Option String
  on_hand : ℚ
  min_stock : ℚ
  on_po : ℚ
  is_below_min : Bool
  deriving DecidableEq, Repr

/-- The below-minimum selection of the daily scan: source line 73,
`below_min_df = df_bal[df_bal["is_below_min"] == True]` (a pandas boolean
filter, which keeps the input row order). -/
def belowMinRows (rows : List BalRow) : List BalRow :=
  rows.filter (fun r => r.is_below_min)

/-- One bullet line of the daily report (source lines 79-85). -/
def dailyRowLine (r : BalRow) : String :=
  "- " ++ r.tool_code ++ " | " ++ r.tool_name
    ++ " (Process: " ++ r.process.getD "-" ++ ")\n   On-hand: "
    ++ toString (pyInt r.on_hand) ++ " | Min: " ++ toString (pyInt r.min_stock)
    ++ " | On-PO: " ++ toString (pyInt r.on_po) ++ "\n"

/-- The daily report message for a nonempty balance query result
(source lines 73-85). -/
def dailyMsg (today : String) (rows : List BalRow) : String :=
  if (belowMinRows rows).isEmpty then
    "📅 Daily Report " ++ today ++ " 08:00\n✅ ไม่มีรายการต่ำกว่า MIN"
  else
    (belowMinRows rows).foldl (fun m r => m ++ dailyRowLine r)
      ("📅 Daily Report " ++ today ++ " 08:00\n🚨 รายการต่ำกว่า MIN:\n")

/-- The daily alert job `send_daily_below_min` (source lines 63-86).
`query` is the outcome of the balance-view read: an exception makes the
function return without sending (lines 64-69), an empty result likewise
(lines 70-71); otherwise the composed message is handed to
`send_telegram`.  The result is the message passed to the dispatcher,
`none` when no send happens. -/
def send_daily_below_min (query : Except String (List BalRow)) (today : String) :
    Option String :=
  match query with
  | .error _ => none
  | .ok rows =>
    if rows.isEmpty then none
    else some (dailyMsg today rows)

/-- Concrete balance row used in counterexamples and witnesses. -/
def rowEx (c : String) (b : Bool) : BalRow :=
  { tool_code := c, tool_name := "Name " ++ c, process := none,
    on_hand := 0, min_stock := 1, on_po := 0, is_below_min := b }

/-- C4 counterexample: the scan applies no sort (the view is queried
without an order clause and the pandas filter keeps input order), so an
input whose below-minimum rows appear as codes `B` then `A` yields an
output that is not ordered by tool code ascending, contradicting the
ordering part of the claim. -/
theorem C4_counterexample :
    belowMinRows [rowEx "B" true, rowEx "A" true] = [rowEx "B" true, rowEx "A" true]
      ∧ ¬ List.Chain' (fun a b : BalRow => a.tool_code ≤ b.tool_code)
          (belowMinRows [rowEx "B" true, rowEx "A" true]) := by
  constructor
  · rfl
  · intro h
    have h2 : (rowEx "B" true).tool_code ≤ (rowEx "A" true).tool_code :=
      (List.chain'_cons.mp h).1
    simp [rowEx] at h2
    exact absurd h2 (by decide)

/-- C4 as amended: the daily scan selects exactly the rows flagged
below-minimum, in the order the balance view returned them (a sublist of
the input; no sort by tool code is applied), and an empty input yields an
empty output. -/
theorem C4_amended_scan_filter_exact (rows : List BalRow) (r : BalRow) :
    (r ∈ belowMinRows rows ↔ r ∈ rows ∧ r.is_below_min = true)
      ∧ (belowMinRows rows).Sublist rows
      ∧ belowMinRows [] = [] := by
  refine ⟨?_, List.filter_sublist rows, rfl⟩
  simp [belowMinRows]

/-- C10: the daily scan sends a composed "no items below MIN" report when
the balance query succeeds with a nonempty result none of which is below
minimum; it sends nothing when the query raises an exception and nothing
when the query returns an empty set. -/
theorem C10_daily_scan_empty_and_failure (today e : String) (rows : List BalRow)
    (hne : rows ≠ []) (hbel : belowMinRows rows = []) :
    send_daily_below_min (.error e) today = none
      ∧ send_daily_below_min (.ok []) today = none
      ∧ send_daily_below_min (.ok rows) today =
          some ("📅 Daily Report " ++ today ++ " 08:00\n✅ ไม่มีรายการต่ำกว่า MIN") := by
  refine ⟨rfl, rfl, ?_⟩
  simp [send_daily_below_min, dailyMsg, hne, hbel]

theorem C10_daily_scan_witness :
    send_daily_below_min (.error "boom") "01-01-2025" = none
      ∧ send_daily_below_min (.ok []) "01-01-2025" = none
      ∧ send_daily_below_min (.ok [rowEx "A" false]) "01-01-2025" =
          some ("📅 Daily Report " ++ "01-01-2025"
            ++ " 08:00\n✅ ไม่มีรายการต่ำกว่า MIN") :=
  C10_daily_scan_empty_and_failure "01-01-2025" "boom" [rowEx "A" false]
    (by simp) (by simp [belowMinRows, rowEx])

/-- A Streamlit notice shown to the user (`st.success`, `st.warning`,
`st.info`, `st.error`). -/
inductive Notice where
  | success (msg : String)
  | warning (msg : String)
  | info (msg : String)
  | error (msg : String)
  deriving DecidableEq, Repr

/-- Telegram configuration read from the environment (source lines 19-20). -/
structure TgConfig where
  token : String
  chat_id : String
  deriving DecidableEq, Repr

/-- The telegram wrapper `send_telegram` (source lines 43-50).  `post` is
the outcome of the HTTP post; the `except` branch converts an exception
into a `st.warning` notice.  The `Except` result models whether an
exception escapes to the caller: the source returns normally on every
path, so the result is always `Except.ok` with the notices shown. -/
def send_telegram (cfg : TgConfig) (_msg : String) (post : Except String Unit) :
    Except String (List Notice) :=
  if cfg.token == "" || cfg.chat_id == "" then .ok []
  else
    match post with
    | .ok _ => .ok []
    | .error e => .ok [Notice.warning ("⚠️ Telegram send failed: " ++ e)]

/-- The OUT form fields (source lines 191-201). -/
structure OutForm where
  tool_code : Option String
  qty : ℚ
  dept : String
  machine : String
  partno : String
  shift : String
  op_name : String
  reason : String
  refdoc : String
  deriving DecidableEq, Repr

/-- The IN form fields (source lines 227-238); `remark` comes from a
selectbox over `New`, `Modify`, `Return`. -/
structure InForm where
  tool_code : Option String
  qty : ℚ
  dept : String
  machine : String
  partno : String
  shift : String
  op_name : String
  reason : String
  remark : String
  refdoc : String
  deriving DecidableEq, Repr

/-- Python truthiness of the `tool_code` variable (`None` or a string). -/
def truthy : Option String → Bool
  | none => false
  | some s => !(s == "")

/-- Python `x or None` for a form string. -/
def optStr (s : String) : Option String :=
  if s == "" then none else some s

/-- Result of pressing a save button: the ledger after the handler, the
messages handed to `send_telegram`, and the notices shown. -/
structure SaveResult where
  ledger : List Txn
  sent : List String
  notices : List Notice
  deriving DecidableEq, Repr

/-- The Save OUT button handler (source lines 203-215).  Guard
`if tool_code and qty > 0`: on pass it inserts the OUT transaction, shows
a success notice and hands a message to `send_telegram`; on fail it does
nothing at all (no notice, no message, no insert). -/
def saveOutHandler (ledger : List Txn) (f : OutForm) (now iso : String) : SaveResult :=
  if truthy f.tool_code && decide (f.qty > 0) then
    let c := f.tool_code.getD ""
    { ledger := ledger ++
        [{ tool_code := c, direction := .OUT, qty := f.qty,
           dept := optStr f.dept, machine_code := optStr f.machine,
           part_no := optStr f.partno, shift := optStr f.shift,
           reason := optStr f.reason, remark := none,
           ref_doc := optStr f.refdoc, op_name := optStr f.op_name, txn_time := iso }],
      sent := ["📤 OUT " ++ c ++ " Qty " ++ toString (pyInt f.qty) ++ " | On " ++ now],
      notices := [Notice.success "✅ OUT transaction saved"] }
  else
    { ledger := ledger, sent := [], notices := [] }

/-- The Save IN button handler (source lines 240-252), same guard as the
OUT handler; the message carries the remark instead of a timestamp. -/
def saveInHandler (ledger : List Txn) (f : InForm) (iso : String) : SaveResult :=
  if truthy f.tool_code && decide (f.qty > 0) then
    let c := f.tool_code.getD ""
    { ledger := ledger ++
        [{ tool_code := c, direction := .IN, qty := f.qty,
           dept := optStr f.dept, machine_code := optStr f.machine,
           part_no := optStr f.partno, shift := optStr f.shift,
           reason := optStr f.reason, remark := optStr f.remark,
           ref_doc := optStr f.refdoc, op_name := optStr f.op_name, txn_time := iso }],
      sent := ["📥 IN " ++ c ++ " Qty " ++ toString (pyInt f.qty)
                 ++ " Remark " ++ f.remark],
      notices := [Notice.success "✅ IN transaction saved"] }
  else
    { ledger := ledger, sent := [], notices := [] }

/-- A master-catalog tool (table `tool_master`, read by `get_master` at
source lines 52-54: active tools ordered by code). -/
structure Tool where
  tool_code : String
  tool_name : String
  process : Option String
  min_stock : ℚ
  is_active : Bool
  deriving DecidableEq, Repr

/-- Below-minimum condition for a tool over a ledger: on-hand strictly
less than the minimum threshold (spec section 3; glossary). -/
def isBelowMin (t : Tool) (ledger : List Txn) : Bool :=
  decide (onHand t.tool_code ledger < t.min_stock)

/-- Concrete tool with minimum threshold 0, used in counterexamples. -/
def toolT1 : Tool :=
  { tool_code := "T1", tool_name := "Tool One", process := none,
    min_stock := 0, is_active := true }

/-- Concrete IN form with a valid tool and quantity 5. -/
def inFormEx : InForm :=
  { tool_code := some "T1", qty := 5, dept := "", machine := "", partno := "",
    shift := "", op_name := "", reason := "Receive", remark := "New", refdoc := "" }

/-- C3 counterexample: saving an IN movement of 5 for tool `T1` (minimum
threshold 0) leaves the tool at or above its minimum, yet the handler
still hands a message to the dispatcher — the save-path notification is
unconditional, not gated on the below-minimum condition as claimed. -/
theorem C3_counterexample :
    isBelowMin toolT1 (saveInHandler [] inFormEx "iso").ledger = false
      ∧ (saveInHandler [] inFormEx "iso").sent ≠ [] := by
  constructor
  · simp [isBelowMin, saveInHandler, inFormEx, truthy, optStr, toolT1,
      onHand, signedQty]
  · simp [saveInHandler, inFormEx, truthy]

/-- C3 as amended: on saving a movement, a message is dispatched exactly
when the form guard passes (a nonempty tool code and a positive
quantity); the messages are independent of the ledger contents, hence of
any balance-versus-minimum condition — only the daily scan applies the
below-minimum test. -/
theorem C3_amended_save_notification_unconditional (ledger ledger' : List Txn)
    (f : OutForm) (g : InForm) (now iso : String) :
    (saveOutHandler ledger f now iso).sent = (saveOutHandler ledger' f now iso).sent
      ∧ ((saveOutHandler ledger f now iso).sent ≠ [] ↔
          truthy f.tool_code = true ∧ 0 < f.qty)
      ∧ (saveInHandler ledger g iso).sent = (saveInHandler ledger' g iso).sent
      ∧ ((saveInHandler ledger g iso).sent ≠ [] ↔
          truthy g.tool_code = true ∧ 0 < g.qty) := by
  refine ⟨?_, ?_, ?_, ?_⟩
  · by_cases h : truthy f.tool_code && decide (f.qty > 0) <;>
      simp [saveOutHandler, h]
  · by_cases h : truthy f.tool_code && decide (f.qty > 0) <;>
      simp [saveOutHandler, h] <;> simp_all
  · by_cases h : truthy g.tool_code && decide (g.qty > 0) <;>
      simp [saveInHandler, h]
  · by_cases h : truthy g.tool_code && decide (g.qty > 0) <;>
      simp [saveInHandler, h] <;> simp_all

/-- Concrete OUT form with quantity 0 (reachable: the quantity input has
minimum 0 and default 0). -/
def outFormZero : OutForm :=
  { tool_code := some "T1", qty := 0, dept := "D1", machine := "", partno := "",
    shift := "", op_name := "", reason := "Issue", refdoc := "" }

/-- Concrete IN form with quantity 0 (reachable: the quantity input has
minimum 0 and default 0). -/
def inFormZero : InForm :=
  { tool_code := some "T1", qty := 0, dept := "D1", machine := "", partno := "",
    shift := "", op_name := "", reason := "Receive", remark := "New", refdoc := "" }

/-- C5 counterexample: a save with quantity 0 — on either the OUT or the
IN form — appends nothing but also surfaces nothing: no notice of any
kind is shown (in particular no `ValidationError`), the button press is
silently ignored, contradicting the claim that the failure is surfaced
to the caller. -/
theorem C5_counterexample :
    saveOutHandler [] outFormZero "now" "iso" =
        { ledger := [], sent := [], notices := [] }
      ∧ saveInHandler [] inFormZero "iso" =
        { ledger := [], sent := [], notices := [] } := by
  constructor
  · decide
  · decide

/-- C5 as amended: for both movement directions, if the quantity is not
positive or the tool code is missing or empty, the save handler appends
no transaction and surfaces no error (the press is silently ignored);
otherwise it appends exactly one transaction of the form direction
carrying the form tool code and quantity and reports success. -/
theorem C5_amended_record_movement (ledger : List Txn) (f : OutForm) (g : InForm)
    (now iso : String) :
    (¬ (truthy f.tool_code = true ∧ 0 < f.qty) →
        saveOutHandler ledger f now iso =
          { ledger := ledger, sent := [], notices := [] })
      ∧ ((truthy f.tool_code = true ∧ 0 < f.qty) →
          ∃ t : Txn, t.tool_code = f.tool_code.getD "" ∧ t.direction = .OUT
            ∧ t.qty = f.qty
            ∧ (saveOutHandler ledger f now iso).ledger = ledger ++ [t]
            ∧ (saveOutHandler ledger f now iso).notices =
                [Notice.success "✅ OUT transaction saved"])
      ∧ (¬ (truthy g.tool_code = true ∧ 0 < g.qty) →
          saveInHandler ledger g iso =
            { ledger := ledger, sent := [], notices := [] })
      ∧ ((truthy g.tool_code = true ∧ 0 < g.qty) →
          ∃ t : Txn, t.tool_code = g.tool_code.getD "" ∧ t.direction = .IN
            ∧ t.qty = g.qty
            ∧ (saveInHandler ledger g iso).ledger = ledger ++ [t]
            ∧ (saveInHandler ledger g iso).notices =
                [Notice.success "✅ IN transaction saved"]) := by
  refine ⟨?_, ?_, ?_, ?_⟩
  · intro h
    have hg : (truthy f.tool_code && decide (f.qty > 0)) = false := by
      simp only [Bool.and_eq_false_iff]
      by_cases ht : truthy f.tool_code = true
      · right; simpa using fun hq => h ⟨ht, hq⟩
      · left; simpa using ht
    simp [saveOutHandler, hg]
  · intro h
    have hg : (truthy f.tool_code && decide (f.qty > 0)) = true := by
      simp [h.1, h.2]
    refine ⟨{ tool_code := f.tool_code.getD "", direction := .OUT, qty := f.qty,
              dept := optStr f.dept, machine_code := optStr f.machine,
              part_no := optStr f.partno, shift := optStr f.shift,
              reason := optStr f.reason, remark := none,
              ref_doc := optStr f.refdoc, op_name := optStr f.op_name,
              txn_time := iso },
            rfl, rfl, rfl, ?_, ?_⟩ <;> simp [saveOutHandler, hg]
  · intro h
    have hg : (truthy g.tool_code && decide (g.qty > 0)) = false := by
      simp only [Bool.and_eq_false_iff]
      by_cases ht : truthy g.tool_code = true
      · right; simpa using fun hq => h ⟨ht, hq⟩
      · left; simpa using ht
    simp [saveInHandler, hg]
  · intro h
    have hg : (truthy g.tool_code && decide (g.qty > 0)) = true := by
      simp [h.1, h.2]
    refine ⟨{ tool_code := g.tool_code.getD "", direction := .IN, qty := g.qty,
              dept := optStr g.dept, machine_code := optStr g.machine,
              part_no := optStr g.partno, shift := optStr g.shift,
              reason := optStr g.reason, remark := optStr g.remark,
              ref_doc := optStr g.refdoc, op_name := optStr g.op_name,
              txn_time := iso },
            rfl, rfl, rfl, ?_, ?_⟩ <;> simp [saveInHandler, hg]

/-- Concrete OUT form with a valid tool and quantity 5. -/
def outFormFive : OutForm :=
  { tool_code := some "T1", qty := 5, dept := "D1", machine := "", partno := "",
    shift := "", op_name := "", reason := "Issue", refdoc := "" }

theorem C5_amended_witness :
    ((truthy outFormFive.tool_code = true ∧ 0 < outFormFive.qty)
      ∧ ∃ t : Txn, t.tool_code = outFormFive.tool_code.getD ""
          ∧ t.direction = .OUT ∧ t.qty = outFormFive.qty
          ∧ (saveOutHandler [] outFormFive "now" "iso").ledger = [] ++ [t]
          ∧ (saveOutHandler [] outFormFive "now" "iso").notices =
              [Notice.success "✅ OUT transaction saved"])
      ∧ ((truthy inFormEx.tool_code = true ∧ 0 < inFormEx.qty)
        ∧ ∃ t : Txn, t.tool_code = inFormEx.tool_code.getD ""
            ∧ t.direction = .IN ∧ t.qty = inFormEx.qty
            ∧ (saveInHandler [] inFormEx "iso").ledger = [] ++ [t]
            ∧ (saveInHandler [] inFormEx "iso").notices =
                [Notice.success "✅ IN transaction saved"]) :=
  ⟨⟨⟨by decide, by norm_num [outFormFive]⟩,
      (C5_amended_record_movement [] outFormFive inFormEx "now" "iso").2.1
        ⟨by decide, by norm_num [outFormFive]⟩⟩,
    ⟨⟨by decide, by norm_num [inFormEx]⟩,
      (C5_amended_record_movement [] outFormFive inFormEx "now" "iso").2.2.2
        ⟨by decide, by norm_num [inFormEx]⟩⟩⟩

/-- The notification step run after a save: each message the handler
produced for `send_telegram` is dispatched (source line 215); an
exception escaping the dispatcher would abort the pipeline after the
mutation, which the wrapper prevents. -/
def notifyStep (cfg : TgConfig) (post : Except String Unit) (r : SaveResult) :
    Except String SaveResult :=
  match r.sent with
  | [] => .ok r
  | m :: _ =>
    match send_telegram cfg m post with
    | .error e => .error e
    | .ok ws => .ok { r with notices := r.notices ++ ws }

/-- The save-then-notify pipeline of the OUT branch: `record_txn`, the
success notice, then `send_telegram` (source lines 213-215). -/
def saveOutThenNotify (cfg : TgConfig) (post : Except String Unit)
    (ledger : List Txn) (f : OutForm) (now iso : String) : Except String SaveResult :=
  notifyStep cfg post (saveOutHandler ledger f now iso)

theorem send_telegram_never_raises (cfg : TgConfig) (m : String)
    (post : Except String Unit) :
    ∃ ns, send_telegram cfg m post = .ok ns := by
  unfold send_telegram
  by_cases h : (cfg.token == "" || cfg.chat_id == "") = true
  · exact ⟨[], by simp [h]⟩
  · cases post with
    | ok u => exact ⟨[], by simp [h]⟩
    | error e => exact ⟨[Notice.warning ("⚠️ Telegram send failed: " ++ e)], by simp [h]⟩

theorem notifyStep_ok (cfg : TgConfig) (post : Except String Unit) (r : SaveResult) :
    ∃ r₂, notifyStep cfg post r = .ok r₂ ∧ r₂.ledger = r.ledger := by
  obtain ⟨ld, sent, nots⟩ := r
  cases sent with
  | nil => exact ⟨_, rfl, rfl⟩
  | cons m₀ ms =>
    obtain ⟨ns, hns⟩ := send_telegram_never_raises cfg m₀ post
    refine ⟨{ ledger := ld, sent := m₀ :: ms, notices := nots ++ ns }, ?_, rfl⟩
    simp [notifyStep, hns]

/-- C9: the telegram wrapper returns normally on every delivery outcome
(at most logging a warning notice), so a delivery failure is never raised
to the caller: the save pipeline always completes with exactly the ledger
the handler produced, whatever the post outcome was. -/
theorem C9_alert_failure_swallowed (cfg : TgConfig) (m : String)
    (post : Except String Unit) (ledger : List Txn) (f : OutForm) (now iso : String) :
    (∃ ns, send_telegram cfg m post = .ok ns)
      ∧ (∃ r, saveOutThenNotify cfg post ledger f now iso = .ok r
          ∧ r.ledger = (saveOutHandler ledger f now iso).ledger) := by
  exact ⟨send_telegram_never_raises cfg m post,
    notifyStep_ok cfg post (saveOutHandler ledger f now iso)⟩

/-- PO header status (source writes the string `Approved` at line 291;
spec section 3 gives the enum `Approved | Closed`). -/
inductive POStatus where
  | Approved
  | Closed
  deriving DecidableEq, Repr

/-- Line-item status (spec section 3: `Pending | Partially Received |
Received`). -/
inductive ItemStatus where
  | Pending
  | PartiallyReceived
  | Received
  deriving DecidableEq, Repr

/-- A `po_header` row as inserted by the Create PO branch (source
line 291). -/
structure POHeader where
  po_number : String
  supplier : String
  approved_by : String
  status : POStatus
  deriving DecidableEq, Repr

/-- A `po_items` row.  The source insert (line 308) sends only `po_id`,
`tool_code` and `request_qty`; `received_qty = 0` and `status = Pending`
are column defaults of the store, modelled from the spec ("Initial
receivedQty = 0, status = Pending"). -/
structure POItem where
  po_id : Nat
  tool_code : String
  request_qty : ℚ
  received_qty : ℚ
  status : ItemStatus
  deriving DecidableEq, Repr

/-- The Create PO button handler (source lines 285-293).  Guard
`if po_number:` — an empty number does nothing at all (no insert, no
notice); a nonempty number is inserted with status `Approved` and a
success notice, with no duplicate check. -/
def createPOHandler (headers : List POHeader) (po_number supplier approved_by : String) :
    List POHeader × List Notice :=
  if po_number == "" then (headers, [])
  else
    (headers ++ [{ po_number := po_number, supplier := supplier,
                   approved_by := approved_by, status := .Approved }],
     [Notice.success "✅ PO created"])

/-- The Add Item button handler (source lines 307-309).  The PO selector
offers only headers with status `Approved` (line 297) and the tool
selector only active master tools (lines 302-303); the button itself
inserts unconditionally — no validation of the quantity. -/
def addItemHandler (items : List POItem) (po_id : Nat) (tool_code : String) (qty : ℚ) :
    List POItem × List Notice :=
  (items ++ [{ po_id := po_id, tool_code := tool_code, request_qty := qty,
               received_qty := 0, status := .Pending }],
   [Notice.success "✅ Item added"])

/-- A row of the tracking view `v_po_tracking` as consumed by the Receive
PO branch (source line 313).  The view is database-side; the columns the
source uses are the item id and the item status, the latter ranging over
the three statuses of spec section 3. -/
structure TrackRow where
  po_item_id : Nat
  item_status : ItemStatus
  deriving DecidableEq, Repr

/-- The listing shown by the Receive PO branch: source line 313 requests
the tracking view filtered to `item_status = Pending`. -/
def receiveListing (rows : List TrackRow) : List TrackRow :=
  rows.filter (fun r => r.item_status == ItemStatus.Pending)

/-- Validation outcome taxonomy of spec section 7. -/
inductive AppError where
  | ValidationError
  | NotFoundError
  | StoreUnavailableError
  deriving DecidableEq, Repr

/-- Modelled from the spec: the pure status function of spec section 3 —
"Received iff received ≥ requested, Partially Received iff
0 < received < requested, else Pending".  The stored procedure
`receive_po_item` that maintains the column is database-side, not in
src/. -/
def statusOf (received requested : ℚ) : ItemStatus :=
  if received ≥ requested then .Received
  else if received > 0 then .PartiallyReceived
  else .Pending

/-- Modelled from the spec: the receipt operation.  The source invokes
the opaque stored procedure `receive_po_item` (line 320), which is not in
src/; spec section 4.2 mandates: fail with `ValidationError` if
receiveQty ≤ 0 or receivedQty + receiveQty > requestedQty (strict cap at
the requested quantity); on success increment receivedQty and recompute
the status by the pure function. -/
def receiveItem (item : POItem) (q : ℚ) : Except AppError POItem :=
  if q ≤ 0 then .error .ValidationError
  else if item.request_qty < item.received_qty + q then .error .ValidationError
  else .ok { item with received_qty := item.received_qty + q,
                       status := statusOf (item.received_qty + q) item.request_qty }

/-- A sequence of receipts applied left to right, stopping at the first
failure. -/
def receiveSeq (item : POItem) : List ℚ → Except AppError POItem
  | [] => .ok item
  | q :: qs =>
    match receiveItem item q with
    | .error e => .error e
    | .ok it => receiveSeq it qs

theorem receiveItem_ok_facts (item it : POItem) (q : ℚ)
    (h : receiveItem item q = .ok it) :
    it.request_qty = item.request_qty ∧ it.received_qty = item.received_qty + q
      ∧ 0 < q ∧ it.received_qty ≤ it.request_qty := by
  unfold receiveItem at h
  by_cases h1 : q ≤ 0
  · simp [h1] at h
  · by_cases h2 : item.request_qty < item.received_qty + q
    · simp [h1, h2] at h
    · simp only [h1, h2, if_false, Except.ok.injEq] at h
      subst h
      refine ⟨rfl, rfl, by linarith, by simpa using le_of_not_lt h2⟩

theorem receiveSeq_ok_facts (qs : List ℚ) :
    ∀ item it : POItem, receiveSeq item qs = .ok it →
      it.request_qty = item.request_qty ∧ item.received_qty ≤ it.received_qty
        ∧ (qs ≠ [] → it.received_qty ≤ it.request_qty) := by
  induction qs with
  | nil =>
    intro item it h
    simp only [receiveSeq, Except.ok.injEq] at h
    subst h
    exact ⟨rfl, le_refl _, by simp⟩
  | cons q qs ih =>
    intro item it h
    unfold receiveSeq at h
    cases hstep : receiveItem item q with
    | error e => rw [hstep] at h; exact absurd h (by simp)
    | ok mid =>
      rw [hstep] at h
      obtain ⟨hreq, hrec, hq, hcap⟩ := receiveItem_ok_facts item mid q hstep
      obtain ⟨ih1, ih2, ih3⟩ := ih mid it h
      refine ⟨ih1.trans hreq, by linarith, fun _ => ?_⟩
      cases qs with
      | nil =>
        simp only [receiveSeq, Except.ok.injEq] at h
        subst h
        exact hcap
      | cons q2 qs2 => exact ih3 (by simp)

/-- C2: receiving more than the remaining requested quantity fails with
`ValidationError` (so receivedQty can never exceed requestedQty); every
successful single receipt keeps receivedQty within requestedQty, strictly
increases receivedQty, and preserves requestedQty; and across any
successful sequence of receipts receivedQty is monotonically
non-decreasing, ending capped at requestedQty when at least one receipt
happened. -/
theorem C2_receive_cap_and_monotone (item it : POItem) (qs : List ℚ)
    (hseq : receiveSeq item qs = .ok it) :
    (∀ q : ℚ, item.request_qty < item.received_qty + q →
        receiveItem item q = .error .ValidationError)
      ∧ (∀ (q : ℚ) (mid : POItem), receiveItem item q = .ok mid →
          mid.received_qty ≤ mid.request_qty ∧ item.received_qty < mid.received_qty
            ∧ mid.request_qty = item.request_qty)
      ∧ item.received_qty ≤ it.received_qty
      ∧ (qs ≠ [] → it.received_qty ≤ it.request_qty) := by
  obtain ⟨h1, h2, h3⟩ := receiveSeq_ok_facts qs item it hseq
  refine ⟨?_, ?_, h2, h3⟩
  · intro q hq
    unfold receiveItem
    by_cases hq0 : q ≤ 0
    · simp [hq0]
    · simp [hq0, hq]
  · intro q mid hmid
    obtain ⟨r1, r2, r3, r4⟩ := receiveItem_ok_facts item mid q hmid
    exact ⟨r4, by linarith, r1⟩

/-- Concrete line item: requested 10, nothing received yet. -/
def c2item : POItem :=
  { po_id := 1, tool_code := "T1", request_qty := 10, received_qty := 0,
    status := .Pending }

/-- Concrete line item after receiving 4 then 6. -/
def c2done : POItem :=
  { po_id := 1, tool_code := "T1", request_qty := 10, received_qty := 10,
    status := .Received }

theorem C2_receive_witness :
    receiveSeq c2item [4, 6] = Except.ok c2done
      ∧ ((∀ q : ℚ, c2item.request_qty < c2item.received_qty + q →
            receiveItem c2item q = .error .ValidationError)
          ∧ (∀ (q : ℚ) (mid : POItem), receiveItem c2item q = .ok mid →
              mid.received_qty ≤ mid.request_qty
                ∧ c2item.received_qty < mid.received_qty
                ∧ mid.request_qty = c2item.request_qty)
          ∧ c2item.received_qty ≤ c2done.received_qty
          ∧ (([4, 6] : List ℚ) ≠ [] → c2done.received_qty ≤ c2done.request_qty)) :=
  ⟨by norm_num [receiveSeq, receiveItem, statusOf, c2item, c2done],
    C2_receive_cap_and_monotone c2item c2done [4, 6]
      (by norm_num [receiveSeq, receiveItem, statusOf, c2item, c2done])⟩

/-- C6 counterexample: pressing Save Item with requested quantity 0 (the
default of the numeric input, whose minimum is 0) does not fail — the
handler inserts a line item with `request_qty = 0` and reports success,
contradicting the claim that requestedQty ≤ 0 fails with
`ValidationError` and creates no line item. -/
theorem C6_counterexample :
    addItemHandler [] 1 "T1" 0 =
      ([{ po_id := 1, tool_code := "T1", request_qty := 0,
          received_qty := 0, status := .Pending }],
       [Notice.success "✅ Item added"]) := rfl

/-- C6 as amended: the Add Item handler performs no quantity validation —
for every quantity the form allows it appends exactly one line item
carrying that quantity, with receivedQty 0 and status Pending (store
defaults per the spec), reports success and surfaces no error; tool and
PO validity are enforced only by the selectors, which offer active tools
and Approved POs. -/
theorem C6_amended_addItem_no_validation (items : List POItem) (po_id : Nat)
    (c : String) (q : ℚ) :
    ∃ new : POItem, (addItemHandler items po_id c q).1 = items ++ [new]
      ∧ new.received_qty = 0 ∧ new.status = .Pending ∧ new.request_qty = q
      ∧ new.tool_code = c ∧ new.po_id = po_id
      ∧ ∀ m, Notice.error m ∉ (addItemHandler items po_id c q).2 := by
  refine ⟨{ po_id := po_id, tool_code := c, request_qty := q,
            received_qty := 0, status := .Pending },
          rfl, rfl, rfl, rfl, rfl, rfl, ?_⟩
  intro m hm
  simp [addItemHandler] at hm

/-- Concrete PO header used in the C7 counterexample. -/
def poP1 : POHeader :=
  { po_number := "P1", supplier := "S1", approved_by := "A1", status := .Approved }

/-- C7 counterexample: creating a PO whose number already exists performs
no duplicate check — the handler inserts a second header with the same
number and reports success (no `ValidationError`); and an empty PO number
is silently ignored (no insert, but also no error surfaced). -/
theorem C7_counterexample :
    (createPOHandler [poP1] "P1" "S2" "A2" =
        ([poP1, { po_number := "P1", supplier := "S2", approved_by := "A2",
                  status := .Approved }],
         [Notice.success "✅ PO created"]))
      ∧ createPOHandler [] "" "S" "A" = ([], []) := ⟨rfl, rfl⟩

/-- C7 as amended: an empty PO number makes the Create PO button do
nothing at all (no insert, no error surfaced); a nonempty number is
always inserted — uniqueness is not checked by the handler but left to
the store — and every header it creates has status Approved; no error
notice is ever emitted. -/
theorem C7_amended_createPO (headers : List POHeader) (n s a : String) :
    (n = "" → createPOHandler headers n s a = (headers, []))
      ∧ (n ≠ "" → ∃ h : POHeader, (createPOHandler headers n s a).1 = headers ++ [h]
          ∧ h.po_number = n ∧ h.status = .Approved)
      ∧ ∀ m, Notice.error m ∉ (createPOHandler headers n s a).2 := by
  refine ⟨?_, ?_, ?_⟩
  · intro h; subst h; rfl
  · intro h
    have hb : (n == "") = false := by simpa using h
    exact ⟨{ po_number := n, supplier := s, approved_by := a, status := .Approved },
      by simp [createPOHandler, hb], rfl, rfl⟩
  · intro m hm
    unfold createPOHandler at hm
    by_cases hb : (n == "") = true
    · simp [hb] at hm
    · simp [hb] at hm

theorem C7_amended_witness :
    createPOHandler [] "" "S" "A" = ([], [])
      ∧ ∃ h : POHeader, (createPOHandler [] "P1" "S" "A").1 = [] ++ [h]
          ∧ h.po_number = "P1" ∧ h.status = .Approved :=
  ⟨(C7_amended_createPO [] "" "S" "A").1 rfl,
    (C7_amended_createPO [] "P1" "S" "A").2.1 (by simp)⟩

/-- Concrete partially received tracking row. -/
def trPart : TrackRow := { po_item_id := 7, item_status := .PartiallyReceived }

/-- C8 counterexample: a line item with status Partially Received — which
is not Received, so the claim says it must be listed — is excluded by the
Receive PO listing, which requests only rows with status Pending. -/
theorem C8_counterexample :
    trPart.item_status ≠ ItemStatus.Received ∧ receiveListing [trPart] = [] :=
  ⟨by decide, rfl⟩

/-- C8 as amended: the Receive PO listing returns exactly the rows whose
status is Pending (partially received items are excluded), in the order
the tracking view returned them (a sublist of the input; no ordering is
requested). -/
theorem C8_amended_listing_pending_only (rows : List TrackRow) (r : TrackRow) :
    (r ∈ receiveListing rows ↔ r ∈ rows ∧ r.item_status = .Pending)
      ∧ (receiveListing rows).Sublist rows := by
  refine ⟨?_, List.filter_sublist rows⟩
  simp [receiveListing]

theorem C3_amended_witness :
    (saveOutHandler [] outFormFive "now" "iso").sent
        = (saveOutHandler [txnEx "T1" .IN 10] outFormFive "now" "iso").sent
      ∧ ((saveOutHandler [] outFormFive "now" "iso").sent ≠ [] ↔
          truthy outFormFive.tool_code = true ∧ 0 < outFormFive.qty)
      ∧ (saveInHandler [] inFormEx "iso").sent
        = (saveInHandler [txnEx "T1" .IN 10] inFormEx "iso").sent
      ∧ ((saveInHandler [] inFormEx "iso").sent ≠ [] ↔
          truthy inFormEx.tool_code = true ∧ 0 < inFormEx.qty) :=
  C3_amended_save_notification_unconditional [] [txnEx "T1" .IN 10]
    outFormFive inFormEx "now" "iso"

theorem C4_amended_witness :
    (rowEx "A" true ∈ belowMinRows [rowEx "A" true, rowEx "B" false] ↔
        rowEx "A" true ∈ [rowEx "A" true, rowEx "B" false]
          ∧ (rowEx "A" true).is_below_min = true)
      ∧ (belowMinRows [rowEx "A" true, rowEx "B" false]).Sublist
          [rowEx "A" true, rowEx "B" false]
      ∧ belowMinRows [] = [] :=
  C4_amended_scan_filter_exact [rowEx "A" true, rowEx "B" false] (rowEx "A" true)

theorem C6_amended_witness :
    ∃ new : POItem, (addItemHandler [] 2 "T2" 3).1 = [] ++ [new]
      ∧ new.received_qty = 0 ∧ new.status = .Pending ∧ new.request_qty = 3
      ∧ new.tool_code = "T2" ∧ new.po_id = 2
      ∧ ∀ m, Notice.error m ∉ (addItemHandler [] 2 "T2" 3).2 :=
  C6_amended_addItem_no_validation [] 2 "T2" 3

theorem C8_amended_witness :
    (trPart ∈ receiveListing [trPart] ↔
        trPart ∈ [trPart] ∧ trPart.item_status = .Pending)
      ∧ (receiveListing [trPart]).Sublist [trPart] :=
  C8_amended_listing_pending_only [trPart] trPart

end ToolStock
